import Mathlib

/-!
# Virtual joystick over uinput: registration pipeline and event emission

A shallow embedding of `uinput_iface_joystick.go`.

The device file is modelled by `Dev`: the calls made on the handle are appended
to a log together with the result the platform gave, and the platform's answer
to the `n`-th call on the handle is read from `Dev.outcome n` (`none` is Go's
`nil` error, `some msg` an error whose text is `msg`).  Go's `error` results are
`Option String`; `fmt.Errorf("...: %v", err)` is string concatenation.

The kernel vocabulary (`EvKey`, `BtnSouth`, `AbsX`, ...) is declared outside this
source file, so every definition takes it as a parameter of type `Codes`.
-/

namespace Uinput

/-- Identifier constants used by the joystick code and declared elsewhere in the
package: event classes, the sync-report code, the bus type, the 17 button codes
and the 6 axis codes. -/
structure Codes where
  EvSyn : Nat
  EvKey : Nat
  EvAbs : Nat
  SynReport : Nat
  BusVirtual : Nat
  BtnSouth : Nat
  BtnEast : Nat
  BtnNorth : Nat
  BtnWest : Nat
  BtnTL : Nat
  BtnTR : Nat
  BtnTL2 : Nat
  BtnTR2 : Nat
  BtnSelect : Nat
  BtnStart : Nat
  BtnMode : Nat
  BtnThumbL : Nat
  BtnThumbR : Nat
  BtnDpadUp : Nat
  BtnDpadDown : Nat
  BtnDpadLeft : Nat
  BtnDpadRight : Nat
  AbsX : Nat
  AbsY : Nat
  AbsRX : Nat
  AbsRY : Nat
  AbsHat0X : Nat
  AbsHat0Y : Nat

/-- The ioctl request identifiers named in the source (their numeric values are
declared elsewhere and never inspected by this file). -/
inductive Req where
  | uiSetEvBit
  | uiSetKeyBit
  | uiSetAbsBit
  | uiDevSetup
  | uiDevCreate
  | uiDevDestroy
  deriving DecidableEq, Repr

/-- One input event record `(type, code, value)` as passed to `emitEvent`. -/
structure Event where
  type : Nat
  code : Nat
  value : Int
  deriving DecidableEq, Repr

/-- The `ID` part of `uinputUserDev`. -/
structure InputID where
  BusType : Nat
  Vendor : Nat
  Product : Nat
  Version : Nat

/-- The fields of `uinputUserDev` that `setupJoystick` assigns.  The four
per-axis arrays are indexed by axis code; a Go zero value is the constant `0`
array. -/
structure UinputUserDev where
  Name : String
  ID : InputID
  AbsMax : Nat → Int
  AbsMin : Nat → Int
  AbsFuzz : Nat → Int
  AbsFlat : Nat → Int

/-- The zero value `var uinp uinputUserDev`. -/
def UinputUserDev.zero : UinputUserDev :=
  { Name := "", ID := ⟨0, 0, 0, 0⟩,
    AbsMax := fun _ => 0, AbsMin := fun _ => 0, AbsFuzz := fun _ => 0, AbsFlat := fun _ => 0 }

/-- A call made on the device file. -/
inductive Call where
  /-- The call `ioctl(devFile, req, arg)` with an integer argument. -/
  | ioctl (req : Req) (arg : Nat)
  /-- The call `ioctl(devFile, uiDevSetup, uintptr(unsafe.Pointer(&uinp)))`. -/
  | ioctlSetup (uinp : UinputUserDev)
  /-- The call `devFile.Write(buf)`. -/
  | write (buf : List Nat)
  /-- The call `emitEvent(devFile, type, code, value)`. -/
  | emit (e : Event)
  /-- The call `devFile.Close()`. -/
  | close
  /-- The call `destroyDevice(devFile)`. -/
  | destroy

/-- The device file: the platform's answer to each call (by position) and the
log of calls made so far, oldest first, each with the answer it got. -/
structure Dev where
  outcome : Nat → Option String
  log : List (Call × Option String)

/-- Perform one call on the handle: read the platform's answer and log it. -/
def Dev.call (d : Dev) (c : Call) : Option String × Dev :=
  (d.outcome d.log.length, { d with log := d.log ++ [(c, d.outcome d.log.length)] })

/-- Modelled from the spec: `SetCapabilityBit` / `IssueCreateDirective`, the
package's `ioctl` helper: one call on the handle. -/
def ioctl (devFile : Dev) (req : Req) (arg : Nat) : Option String × Dev :=
  devFile.call (Call.ioctl req arg)

/-- Modelled from the spec: `WriteEvent(handle, type, code, value) -> Error`, the
package's `emitEvent` helper: writes one primitive event record. -/
def emitEvent (devFile : Dev) (typ code : Nat) (value : Int) : Option String × Dev :=
  devFile.call (Call.emit ⟨typ, code, value⟩)

/-- Modelled from the spec: `IssueDestroyDirective(handle) -> Error`, the
package's `destroyDevice` helper. -/
def destroyDevice (devFile : Dev) : Option String × Dev :=
  devFile.call Call.destroy

/-- The events the device accepted, oldest first: the logged `emitEvent` calls
that returned no error. -/
def emitted (d : Dev) : List Event :=
  d.log.filterMap fun
    | (Call.emit e, none) => some e
    | _ => none

/-- The events passed to `emitEvent`, accepted or not, oldest first. -/
def attempted (d : Dev) : List Event :=
  d.log.filterMap fun
    | (Call.emit e, _) => some e
    | _ => none

/-- The `buttons` slice of `setupJoystick`. -/
def buttons (c : Codes) : List Nat :=
  [c.BtnSouth, c.BtnEast, c.BtnNorth, c.BtnWest, c.BtnTL, c.BtnTR, c.BtnTL2, c.BtnTR2,
   c.BtnSelect, c.BtnStart, c.BtnMode, c.BtnThumbL, c.BtnThumbR,
   c.BtnDpadUp, c.BtnDpadDown, c.BtnDpadLeft, c.BtnDpadRight]

/-- The `hats` slice of `setupJoystick`. -/
def hats (c : Codes) : List Nat :=
  [c.AbsHat0X, c.AbsHat0Y]

/-- The assignment `uinp.AbsMin[i] = v`. -/
def UinputUserDev.setAbsMin (uinp : UinputUserDev) (i : Nat) (v : Int) : UinputUserDev :=
  { uinp with AbsMin := Function.update uinp.AbsMin i v }

/-- The assignment `uinp.AbsMax[i] = v`. -/
def UinputUserDev.setAbsMax (uinp : UinputUserDev) (i : Nat) (v : Int) : UinputUserDev :=
  { uinp with AbsMax := Function.update uinp.AbsMax i v }

/-- The assignment `uinp.AbsFuzz[i] = v`. -/
def UinputUserDev.setAbsFuzz (uinp : UinputUserDev) (i : Nat) (v : Int) : UinputUserDev :=
  { uinp with AbsFuzz := Function.update uinp.AbsFuzz i v }

/-- The assignment `uinp.AbsFlat[i] = v`. -/
def UinputUserDev.setAbsFlat (uinp : UinputUserDev) (i : Nat) (v : Int) : UinputUserDev :=
  { uinp with AbsFlat := Function.update uinp.AbsFlat i v }

/-- The loop `for _, i := range hats { uinp.AbsMax[i] = 1; uinp.AbsMin[i] = -1 }`. -/
def setHatRanges : List Nat → UinputUserDev → UinputUserDev
  | [], uinp => uinp
  | i :: rest, uinp => setHatRanges rest ((uinp.setAbsMax i 1).setAbsMin i (-1))

/-- The first part of `setupJoystick` (source lines 29-89): the capability
descriptor `uinp` as it stands when it is serialised and sent.  The assignments
are applied in source order, top to bottom. -/
def setupJoystickUinp (c : Codes) (minX maxX minY maxY flat fuzz : Int) : UinputUserDev :=
  let uinp : UinputUserDev :=
    { UinputUserDev.zero with
      Name := "GoUinputDevice"
      ID := { BusType := c.BusVirtual, Vendor := 1, Product := 2, Version := 3 } }
  -- Sticks
  let uinp := uinp.setAbsMin c.AbsX minX
  let uinp := uinp.setAbsMax c.AbsX maxX
  let uinp := uinp.setAbsFuzz c.AbsX fuzz
  let uinp := uinp.setAbsFlat c.AbsX flat
  let uinp := uinp.setAbsMin c.AbsY minY
  let uinp := uinp.setAbsMax c.AbsY maxY
  let uinp := uinp.setAbsFuzz c.AbsY fuzz
  let uinp := uinp.setAbsFlat c.AbsY flat
  let uinp := uinp.setAbsMin c.AbsRX minX
  let uinp := uinp.setAbsMax c.AbsRX maxX
  let uinp := uinp.setAbsFuzz c.AbsRX fuzz
  let uinp := uinp.setAbsFlat c.AbsRX flat
  let uinp := uinp.setAbsMin c.AbsRY minY
  let uinp := uinp.setAbsMax c.AbsRY maxY
  let uinp := uinp.setAbsFuzz c.AbsRY fuzz
  let uinp := uinp.setAbsFlat c.AbsRY flat
  -- Digital dpad buttons
  setHatRanges (hats c) uinp

/-- The two registration loops `for _, i := range xs { err = ioctl(devFile, req, uintptr(i)); ... goto err }`:
one ioctl per element, leaving at the first error with the message prefixed. -/
def setBits (req : Req) (msg : String) : List Nat → Dev → Option String × Dev
  | [], d => (none, d)
  | i :: rest, d =>
    match ioctl d req i with
    | (some e, d) => (some (msg ++ e), d)
    | (none, d) => setBits req msg rest d

/-- The function `setupJoystick`.  `uinputUserDevToBuffer` is declared elsewhere
in the package and is taken as a parameter.  The closing `time.Sleep` makes no
call on the handle. -/
def setupJoystick (c : Codes) (uinputUserDevToBuffer : UinputUserDev → Except String (List Nat))
    (devFile : Dev) (minX maxX minY maxY flat fuzz : Int) : Option String × Dev :=
  let uinp := setupJoystickUinp c minX maxX minY maxY flat fuzz
  match uinputUserDevToBuffer uinp with
  | .error e => (some e, devFile)
  | .ok buf =>
  match ioctl devFile Req.uiSetEvBit c.EvKey with
  | (some e, d) => (some ("Could not perform UI_SET_EVBIT ioctl: " ++ e), d)
  | (none, d) =>
  -- Register all gamepad buttons
  match setBits Req.uiSetKeyBit "Could not perform UI_SET_KEYBIT ioctl: " (buttons c) d with
  | (some e, d) => (some e, d)
  | (none, d) =>
  -- Configure the sticks (and the digital dpad buttons)
  match ioctl d Req.uiSetEvBit c.EvAbs with
  | (some e, d) => (some ("Could not perform UI_SET_EVBIT ioctl: " ++ e), d)
  | (none, d) =>
  match ioctl d Req.uiSetAbsBit c.AbsX with
  | (some e, d) => (some ("Could not perform UI_SET_EVBIT ioctl: " ++ e), d)
  | (none, d) =>
  match ioctl d Req.uiSetAbsBit c.AbsY with
  | (some e, d) => (some ("Could not perform UI_SET_EVBIT ioctl: " ++ e), d)
  | (none, d) =>
  match ioctl d Req.uiSetAbsBit c.AbsRX with
  | (some e, d) => (some ("Could not perform UI_SET_EVBIT ioctl: " ++ e), d)
  | (none, d) =>
  match ioctl d Req.uiSetAbsBit c.AbsRY with
  | (some e, d) => (some ("Could not perform UI_SET_EVBIT ioctl: " ++ e), d)
  | (none, d) =>
  -- Dpad buttons
  match setBits Req.uiSetAbsBit "Could not perform UI_SET_EVBIT ioctl: " (hats c) d with
  | (some e, d) => (some e, d)
  | (none, d) =>
  match d.call (Call.ioctlSetup uinp) with
  | (some e, d) => (some ("Could not perform UI_DEV_SETUP ioctl: " ++ e), d)
  | (none, d) =>
  match d.call (Call.write buf) with
  | (some e, d) => (some ("Could not write uinputUserDev to device: " ++ e), d)
  | (none, d) =>
  match ioctl d Req.uiDevCreate 0 with
  | (some e, d) =>
    let d := (d.call Call.close).2
    (some ("Could not perform UI_DEV_CREATE ioctl: " ++ e), d)
  | (none, d) => (none, d)

/-- The function `CreateJoystick`.  `openUinputDev` is declared elsewhere in the
package; its result is the parameter `opened` (an error, or the fresh handle).
The result is the returned error together with the state of the handle that was
opened, if one was; the returned `Joystick` is `vJoystick{devFile: dev}` exactly
when the error is `none`. -/
def CreateJoystick (c : Codes) (uinputUserDevToBuffer : UinputUserDev → Except String (List Nat))
    (opened : Except String Dev) (minX maxX minY maxY flat fuzz : Int) :
    Option String × Option Dev :=
  match opened with
  | .error e => (some e, none)
  | .ok dev =>
    match setupJoystick c uinputUserDevToBuffer dev minX maxX minY maxY flat fuzz with
    | (some e, dev) => (some e, some dev)
    | (none, dev) => (none, some dev)

/-- The method `vJoystick.dpadDown`. -/
def dpadDown (c : Codes) (devFile : Dev) (btnCode : Nat) : Option String × Dev :=
  let sel : Option (Nat × Int) :=
    if btnCode = c.BtnDpadUp then some (c.AbsHat0Y, -1)
    else if btnCode = c.BtnDpadDown then some (c.AbsHat0Y, 1)
    else if btnCode = c.BtnDpadLeft then some (c.AbsHat0X, -1)
    else if btnCode = c.BtnDpadRight then some (c.AbsHat0X, 1)
    else none
  match sel with
  | none => (some ("Unknown dpad button: " ++ String.mk (Nat.toDigits 16 btnCode)), devFile)
  | some (hat, val) =>
    match emitEvent devFile c.EvAbs hat val with
    | (some e, d) => (some ("Could not emit button up event: " ++ e), d)
    | (none, d) =>
      match emitEvent d c.EvSyn c.SynReport 0 with
      | (some e, d) => (some ("Could not emit sync event: " ++ e), d)
      | (none, d) => (none, d)

/-- The method `vJoystick.BtnDown`: the result of `dpadDown` is dropped. -/
def BtnDown (c : Codes) (devFile : Dev) (btn : Nat) : Option String × Dev :=
  let d :=
    if btn = c.BtnDpadUp ∨ btn = c.BtnDpadDown ∨ btn = c.BtnDpadLeft ∨ btn = c.BtnDpadRight then
      (dpadDown c devFile btn).2
    else devFile
  match emitEvent d c.EvKey btn 1 with
  | (some e, d) => (some ("Could not emit dpad down event: " ++ e), d)
  | (none, d) =>
    match emitEvent d c.EvSyn c.SynReport 0 with
    | (some e, d) => (some ("Could not emit sync event: " ++ e), d)
    | (none, d) => (none, d)

/-- The method `vJoystick.dpadUp`. -/
def dpadUp (c : Codes) (devFile : Dev) (btnCode : Nat) : Option String × Dev :=
  let sel : Option Nat :=
    if btnCode = c.BtnDpadUp ∨ btnCode = c.BtnDpadDown then some c.AbsHat0Y
    else if btnCode = c.BtnDpadLeft ∨ btnCode = c.BtnDpadRight then some c.AbsHat0X
    else none
  match sel with
  | none => (some ("Unknown dpad button: " ++ String.mk (Nat.toDigits 16 btnCode)), devFile)
  | some hat =>
    match emitEvent devFile c.EvAbs hat 0 with
    | (some e, d) => (some ("Could not emit dpad up event: " ++ e), d)
    | (none, d) =>
      match emitEvent d c.EvSyn c.SynReport 0 with
      | (some e, d) => (some ("Could not emit sync event: " ++ e), d)
      | (none, d) => (none, d)

/-- The method `vJoystick.BtnUp`: the result of `dpadUp` is dropped. -/
def BtnUp (c : Codes) (devFile : Dev) (btn : Nat) : Option String × Dev :=
  let d :=
    if btn = c.BtnDpadUp ∨ btn = c.BtnDpadDown ∨ btn = c.BtnDpadLeft ∨ btn = c.BtnDpadRight then
      (dpadUp c devFile btn).2
    else devFile
  match emitEvent d c.EvKey btn 0 with
  | (some e, d) => (some ("Could not emit button up event: " ++ e), d)
  | (none, d) =>
    match emitEvent d c.EvSyn c.SynReport 0 with
    | (some e, d) => (some ("Could not emit sync event: " ++ e), d)
    | (none, d) => (none, d)

/-- The method `vJoystick.LeftStickX`. -/
def LeftStickX (c : Codes) (devFile : Dev) (x : Int) : Option String × Dev :=
  match emitEvent devFile c.EvAbs c.AbsX x with
  | (some e, d) => (some ("Could not emit AbsX event: " ++ e), d)
  | (none, d) =>
    match emitEvent d c.EvSyn c.SynReport 0 with
    | (some e, d) => (some ("Could not emit sync event: " ++ e), d)
    | (none, d) => (none, d)

/-- The method `vJoystick.LeftStickY`. -/
def LeftStickY (c : Codes) (devFile : Dev) (y : Int) : Option String × Dev :=
  match emitEvent devFile c.EvAbs c.AbsY y with
  | (some e, d) => (some ("Could not emit AbsY event: " ++ e), d)
  | (none, d) =>
    match emitEvent d c.EvSyn c.SynReport 0 with
    | (some e, d) => (some ("Could not emit sync event: " ++ e), d)
    | (none, d) => (none, d)

/-- The method `vJoystick.RightStickY`. -/
def RightStickY (c : Codes) (devFile : Dev) (y : Int) : Option String × Dev :=
  match emitEvent devFile c.EvAbs c.AbsRY y with
  | (some e, d) => (some ("Could not emit AbsRY event: " ++ e), d)
  | (none, d) =>
    match emitEvent d c.EvSyn c.SynReport 0 with
    | (some e, d) => (some ("Could not emit sync event: " ++ e), d)
    | (none, d) => (none, d)

/-- The method `vJoystick.RightStickX`. -/
def RightStickX (c : Codes) (devFile : Dev) (x : Int) : Option String × Dev :=
  match emitEvent devFile c.EvAbs c.AbsRX x with
  | (some e, d) => (some ("Could not emit AbsRX event: " ++ e), d)
  | (none, d) =>
    match emitEvent d c.EvSyn c.SynReport 0 with
    | (some e, d) => (some ("Could not emit sync event: " ++ e), d)
    | (none, d) => (none, d)

/-- The method `vJoystick.Close`. -/
def Close (devFile : Dev) : Option String × Dev :=
  destroyDevice devFile

/-! ## Vocabulary side conditions, fixtures and specification-side definitions -/

/-- The four dpad button codes are pairwise distinct (Go rejects a `switch` with
duplicate constant cases, so `dpadDown` and `dpadUp` only compile when this holds). -/
def Codes.DpadDistinct (c : Codes) : Prop :=
  [c.BtnDpadUp, c.BtnDpadDown, c.BtnDpadLeft, c.BtnDpadRight].Nodup

/-- The six axis codes are pairwise distinct. -/
def Codes.AxesDistinct (c : Codes) : Prop :=
  [c.AbsX, c.AbsY, c.AbsRX, c.AbsRY, c.AbsHat0X, c.AbsHat0Y].Nodup

/-- The absolute-axis event class differs from the key and the sync class. -/
def Codes.ClassesDistinct (c : Codes) : Prop :=
  c.EvAbs ≠ c.EvKey ∧ c.EvAbs ≠ c.EvSyn

/-- A concrete vocabulary used to instantiate the theorems at concrete inputs:
the values of the Linux `input-event-codes.h` header (`EV_KEY = 1`,
`BTN_SOUTH = 0x130`, `BTN_DPAD_UP = 0x220`, `ABS_HAT0Y = 0x11`, ...). -/
def linuxCodes : Codes :=
  { EvSyn := 0, EvKey := 1, EvAbs := 3, SynReport := 0, BusVirtual := 6,
    BtnSouth := 304, BtnEast := 305, BtnNorth := 307, BtnWest := 308,
    BtnTL := 310, BtnTR := 311, BtnTL2 := 312, BtnTR2 := 313,
    BtnSelect := 314, BtnStart := 315, BtnMode := 316, BtnThumbL := 317, BtnThumbR := 318,
    BtnDpadUp := 544, BtnDpadDown := 545, BtnDpadLeft := 546, BtnDpadRight := 547,
    AbsX := 0, AbsY := 1, AbsRX := 3, AbsRY := 4, AbsHat0X := 16, AbsHat0Y := 17 }

/-- A freshly opened handle on which every call succeeds. -/
def okDev : Dev :=
  { outcome := fun _ => none, log := [] }

/-- A freshly opened handle whose call number `n` (counted from 0) fails with
`msg`, every other call succeeding. -/
def failAt (n : Nat) (msg : String) : Dev :=
  { outcome := fun k => if k = n then some msg else none, log := [] }

/-- A stand-in for `uinputUserDevToBuffer` that always succeeds, with an empty
buffer (the bytes written are not inspected by any statement below). -/
def okBuffer : UinputUserDev → Except String (List Nat) :=
  fun _ => Except.ok []

/-- A button transition requested by the caller. -/
inductive Op where
  | down (btn : Nat)
  | up (btn : Nat)

/-- Run a sequence of `BtnDown` / `BtnUp` calls on the handle, oldest first. -/
def runOps (c : Codes) : List Op → Dev → Dev
  | [], d => d
  | Op.down btn :: rest, d => runOps c rest (BtnDown c d btn).2
  | Op.up btn :: rest, d => runOps c rest (BtnUp c d btn).2

/-- The value last written to `axis` in a trace of accepted events: the value of
the latest absolute-axis event whose code is `axis`, if there is one. -/
def lastWritten (c : Codes) (axis : Nat) (tr : List Event) : Option Int :=
  tr.foldl (fun acc e => if e.type = c.EvAbs ∧ e.code = axis then some e.value else acc) none

/-- The value that the spec's dpad sub-machine assigns to `axis` on a transition,
if the transition is a dpad transition on that axis: Up -> (hatY, -1),
Down -> (hatY, +1), Left -> (hatX, -1), Right -> (hatX, +1) on a press, and 0 on
the direction's axis on a release. -/
def dpadWrite (c : Codes) (axis : Nat) : Op → Option Int
  | Op.down btn =>
    if btn = c.BtnDpadUp ∧ axis = c.AbsHat0Y then some (-1)
    else if btn = c.BtnDpadDown ∧ axis = c.AbsHat0Y then some 1
    else if btn = c.BtnDpadLeft ∧ axis = c.AbsHat0X then some (-1)
    else if btn = c.BtnDpadRight ∧ axis = c.AbsHat0X then some 1
    else none
  | Op.up btn =>
    if (btn = c.BtnDpadUp ∨ btn = c.BtnDpadDown) ∧ axis = c.AbsHat0Y then some 0
    else if (btn = c.BtnDpadLeft ∨ btn = c.BtnDpadRight) ∧ axis = c.AbsHat0X then some 0
    else none

/-- Last-write-wins: the value of the most recent dpad transition on `axis` in
`ops`, or `init` when `ops` has none. -/
def mostRecent (c : Codes) (axis : Nat) (ops : List Op) (init : Option Int) : Option Int :=
  ops.foldl (fun acc op => match dpadWrite c axis op with
    | some v => some v
    | none => acc) init

/-- The registration pipeline as the spec lists it, written out call by call:
the key-event class bit (call 0), the 17 button bits of the Button Set, that is
4 face buttons, 4 shoulder/trigger buttons, select/start/mode, 2 thumb-clicks
and 4 dpad directions (calls 1 to 17), the absolute-axis class bit (call 18),
the six axis bits (calls 19 to 24), the descriptor transmission, which is the
setup ioctl and the write (calls 25 and 26), then the create directive
(call 27). -/
def pipeline (c : Codes) (uinp : UinputUserDev) (buf : List Nat) : List Call :=
  [Call.ioctl Req.uiSetEvBit c.EvKey,
   Call.ioctl Req.uiSetKeyBit c.BtnSouth, Call.ioctl Req.uiSetKeyBit c.BtnEast,
   Call.ioctl Req.uiSetKeyBit c.BtnNorth, Call.ioctl Req.uiSetKeyBit c.BtnWest,
   Call.ioctl Req.uiSetKeyBit c.BtnTL, Call.ioctl Req.uiSetKeyBit c.BtnTR,
   Call.ioctl Req.uiSetKeyBit c.BtnTL2, Call.ioctl Req.uiSetKeyBit c.BtnTR2,
   Call.ioctl Req.uiSetKeyBit c.BtnSelect, Call.ioctl Req.uiSetKeyBit c.BtnStart,
   Call.ioctl Req.uiSetKeyBit c.BtnMode,
   Call.ioctl Req.uiSetKeyBit c.BtnThumbL, Call.ioctl Req.uiSetKeyBit c.BtnThumbR,
   Call.ioctl Req.uiSetKeyBit c.BtnDpadUp, Call.ioctl Req.uiSetKeyBit c.BtnDpadDown,
   Call.ioctl Req.uiSetKeyBit c.BtnDpadLeft, Call.ioctl Req.uiSetKeyBit c.BtnDpadRight,
   Call.ioctl Req.uiSetEvBit c.EvAbs,
   Call.ioctl Req.uiSetAbsBit c.AbsX, Call.ioctl Req.uiSetAbsBit c.AbsY,
   Call.ioctl Req.uiSetAbsBit c.AbsRX, Call.ioctl Req.uiSetAbsBit c.AbsRY,
   Call.ioctl Req.uiSetAbsBit c.AbsHat0X, Call.ioctl Req.uiSetAbsBit c.AbsHat0Y,
   Call.ioctlSetup uinp, Call.write buf,
   Call.ioctl Req.uiDevCreate 0]

/-- The calls issued on the handle between state `d0` and the later state `d`. -/
def issued (d0 d : Dev) : List Call :=
  (d.log.drop d0.log.length).map Prod.fst

/-- Whether a call is the create directive `ioctl(devFile, uiDevCreate, 0)`. -/
def Call.isCreate : Call → Bool
  | Call.ioctl Req.uiDevCreate _ => true
  | _ => false

/-- Whether a call is `devFile.Close()`. -/
def Call.isClose : Call → Bool
  | Call.close => true
  | _ => false

/-! ## Basic facts about single calls -/

/-- The accepted events of a log split along an append. -/
theorem emitted_append (o : Nat → Option String) (l1 l2 : List (Call × Option String)) :
    emitted ⟨o, l1 ++ l2⟩ = emitted ⟨o, l1⟩ ++ emitted ⟨o, l2⟩ := by
  simp [emitted, List.filterMap_append]

/-- On a dpad code, when the four writes succeed, `BtnDown` returns no error and
appends four calls: the hat update, a sync, the key-down event, a sync. -/
theorem BtnDown_dpad_ok (c : Codes) (hc : c.DpadDistinct) (d : Dev)
    (h : ∀ k, k < 4 → d.outcome (d.log.length + k) = none) :
    BtnDown c d c.BtnDpadUp = (none, { d with log := d.log ++
        [(Call.emit ⟨c.EvAbs, c.AbsHat0Y, -1⟩, none), (Call.emit ⟨c.EvSyn, c.SynReport, 0⟩, none),
         (Call.emit ⟨c.EvKey, c.BtnDpadUp, 1⟩, none), (Call.emit ⟨c.EvSyn, c.SynReport, 0⟩, none)] })
    ∧ BtnDown c d c.BtnDpadDown = (none, { d with log := d.log ++
        [(Call.emit ⟨c.EvAbs, c.AbsHat0Y, 1⟩, none), (Call.emit ⟨c.EvSyn, c.SynReport, 0⟩, none),
         (Call.emit ⟨c.EvKey, c.BtnDpadDown, 1⟩, none), (Call.emit ⟨c.EvSyn, c.SynReport, 0⟩, none)] })
    ∧ BtnDown c d c.BtnDpadLeft = (none, { d with log := d.log ++
        [(Call.emit ⟨c.EvAbs, c.AbsHat0X, -1⟩, none), (Call.emit ⟨c.EvSyn, c.SynReport, 0⟩, none),
         (Call.emit ⟨c.EvKey, c.BtnDpadLeft, 1⟩, none), (Call.emit ⟨c.EvSyn, c.SynReport, 0⟩, none)] })
    ∧ BtnDown c d c.BtnDpadRight = (none, { d with log := d.log ++
        [(Call.emit ⟨c.EvAbs, c.AbsHat0X, 1⟩, none), (Call.emit ⟨c.EvSyn, c.SynReport, 0⟩, none),
         (Call.emit ⟨c.EvKey, c.BtnDpadRight, 1⟩, none), (Call.emit ⟨c.EvSyn, c.SynReport, 0⟩, none)] }) := by
  have h0 := h 0 (by norm_num)
  have h1 := h 1 (by norm_num)
  have h2 := h 2 (by norm_num)
  have h3 := h 3 (by norm_num)
  simp only [Codes.DpadDistinct, List.nodup_cons, List.mem_cons, List.mem_singleton,
    not_or, List.not_mem_nil, not_false_eq_true, List.nodup_nil, and_true] at hc
  obtain ⟨⟨hud, hul, hur⟩, ⟨hdl, hdr⟩, hlr⟩ := hc
  simp at h0
  refine ⟨?_, ?_, ?_, ?_⟩ <;>
    simp [BtnDown, dpadDown, emitEvent, Dev.call, h0, h1, h2, h3, Ne.symm hud, Ne.symm hul,
      Ne.symm hur, Ne.symm hdl, Ne.symm hdr, Ne.symm hlr, Nat.add_assoc]

/-- On a dpad code, when the four writes succeed, `BtnUp` returns no error and
appends four calls: the hat reset, a sync, the key-up event, a sync. -/
theorem BtnUp_dpad_ok (c : Codes) (hc : c.DpadDistinct) (d : Dev)
    (h : ∀ k, k < 4 → d.outcome (d.log.length + k) = none) :
    BtnUp c d c.BtnDpadUp = (none, { d with log := d.log ++
        [(Call.emit ⟨c.EvAbs, c.AbsHat0Y, 0⟩, none), (Call.emit ⟨c.EvSyn, c.SynReport, 0⟩, none),
         (Call.emit ⟨c.EvKey, c.BtnDpadUp, 0⟩, none), (Call.emit ⟨c.EvSyn, c.SynReport, 0⟩, none)] })
    ∧ BtnUp c d c.BtnDpadDown = (none, { d with log := d.log ++
        [(Call.emit ⟨c.EvAbs, c.AbsHat0Y, 0⟩, none), (Call.emit ⟨c.EvSyn, c.SynReport, 0⟩, none),
         (Call.emit ⟨c.EvKey, c.BtnDpadDown, 0⟩, none), (Call.emit ⟨c.EvSyn, c.SynReport, 0⟩, none)] })
    ∧ BtnUp c d c.BtnDpadLeft = (none, { d with log := d.log ++
        [(Call.emit ⟨c.EvAbs, c.AbsHat0X, 0⟩, none), (Call.emit ⟨c.EvSyn, c.SynReport, 0⟩, none),
         (Call.emit ⟨c.EvKey, c.BtnDpadLeft, 0⟩, none), (Call.emit ⟨c.EvSyn, c.SynReport, 0⟩, none)] })
    ∧ BtnUp c d c.BtnDpadRight = (none, { d with log := d.log ++
        [(Call.emit ⟨c.EvAbs, c.AbsHat0X, 0⟩, none), (Call.emit ⟨c.EvSyn, c.SynReport, 0⟩, none),
         (Call.emit ⟨c.EvKey, c.BtnDpadRight, 0⟩, none), (Call.emit ⟨c.EvSyn, c.SynReport, 0⟩, none)] }) := by
  have h0 := h 0 (by norm_num)
  have h1 := h 1 (by norm_num)
  have h2 := h 2 (by norm_num)
  have h3 := h 3 (by norm_num)
  simp only [Codes.DpadDistinct, List.nodup_cons, List.mem_cons, List.mem_singleton,
    not_or, List.not_mem_nil, not_false_eq_true, List.nodup_nil, and_true] at hc
  obtain ⟨⟨hud, hul, hur⟩, ⟨hdl, hdr⟩, hlr⟩ := hc
  simp at h0
  refine ⟨?_, ?_, ?_, ?_⟩ <;>
    simp [BtnUp, dpadUp, emitEvent, Dev.call, h0, h1, h2, h3, Ne.symm hud, Ne.symm hul,
      Ne.symm hur, Ne.symm hdl, Ne.symm hdr, Ne.symm hlr, Nat.add_assoc]

/-- On a code that is none of the four dpad codes, when the two writes succeed,
`BtnDown` returns no error and appends the key-down event and a sync. -/
theorem BtnDown_plain_ok (c : Codes) (d : Dev) (btn : Nat)
    (hb : btn ≠ c.BtnDpadUp ∧ btn ≠ c.BtnDpadDown ∧ btn ≠ c.BtnDpadLeft ∧ btn ≠ c.BtnDpadRight)
    (h0 : d.outcome d.log.length = none) (h1 : d.outcome (d.log.length + 1) = none) :
    BtnDown c d btn = (none, { d with log := d.log ++
        [(Call.emit ⟨c.EvKey, btn, 1⟩, none), (Call.emit ⟨c.EvSyn, c.SynReport, 0⟩, none)] }) := by
  simp [BtnDown, emitEvent, Dev.call, hb, h0, h1]

/-- On a code that is none of the four dpad codes, when the two writes succeed,
`BtnUp` returns no error and appends the key-up event and a sync. -/
theorem BtnUp_plain_ok (c : Codes) (d : Dev) (btn : Nat)
    (hb : btn ≠ c.BtnDpadUp ∧ btn ≠ c.BtnDpadDown ∧ btn ≠ c.BtnDpadLeft ∧ btn ≠ c.BtnDpadRight)
    (h0 : d.outcome d.log.length = none) (h1 : d.outcome (d.log.length + 1) = none) :
    BtnUp c d btn = (none, { d with log := d.log ++
        [(Call.emit ⟨c.EvKey, btn, 0⟩, none), (Call.emit ⟨c.EvSyn, c.SynReport, 0⟩, none)] }) := by
  simp [BtnUp, emitEvent, Dev.call, hb, h0, h1]

theorem linuxCodes_dpadDistinct : linuxCodes.DpadDistinct := by
  unfold Codes.DpadDistinct linuxCodes
  decide

theorem linuxCodes_axesDistinct : linuxCodes.AxesDistinct := by
  unfold Codes.AxesDistinct linuxCodes
  decide

theorem linuxCodes_classesDistinct : linuxCodes.ClassesDistinct := by
  unfold Codes.ClassesDistinct linuxCodes
  decide

/-! ## C1: the hat-axis event precedes the key event -/

/-- C1. For each of the four dpad codes, when the device writes succeed,
`BtnDown` returns no error and the events it emits are the absolute-axis event
on the mapped hat axis with the mapped signed value (Up -> (AbsHat0Y, -1),
Down -> (AbsHat0Y, 1), Left -> (AbsHat0X, -1), Right -> (AbsHat0X, 1)), a sync,
the key event (EvKey, code, 1), a sync, in this order; `BtnUp` emits the
absolute-axis event with value 0 on the mapped hat axis, a sync, the key event
(EvKey, code, 0), a sync.  So the hat-axis event precedes the key event. -/
theorem dpad_hat_precedes_key (c : Codes) (hc : c.DpadDistinct) (d : Dev)
    (h : ∀ k, k < 4 → d.outcome (d.log.length + k) = none) :
    ((BtnDown c d c.BtnDpadUp).1 = none ∧
      emitted (BtnDown c d c.BtnDpadUp).2 = emitted d ++
        [⟨c.EvAbs, c.AbsHat0Y, -1⟩, ⟨c.EvSyn, c.SynReport, 0⟩,
         ⟨c.EvKey, c.BtnDpadUp, 1⟩, ⟨c.EvSyn, c.SynReport, 0⟩])
    ∧ ((BtnDown c d c.BtnDpadDown).1 = none ∧
      emitted (BtnDown c d c.BtnDpadDown).2 = emitted d ++
        [⟨c.EvAbs, c.AbsHat0Y, 1⟩, ⟨c.EvSyn, c.SynReport, 0⟩,
         ⟨c.EvKey, c.BtnDpadDown, 1⟩, ⟨c.EvSyn, c.SynReport, 0⟩])
    ∧ ((BtnDown c d c.BtnDpadLeft).1 = none ∧
      emitted (BtnDown c d c.BtnDpadLeft).2 = emitted d ++
        [⟨c.EvAbs, c.AbsHat0X, -1⟩, ⟨c.EvSyn, c.SynReport, 0⟩,
         ⟨c.EvKey, c.BtnDpadLeft, 1⟩, ⟨c.EvSyn, c.SynReport, 0⟩])
    ∧ ((BtnDown c d c.BtnDpadRight).1 = none ∧
      emitted (BtnDown c d c.BtnDpadRight).2 = emitted d ++
        [⟨c.EvAbs, c.AbsHat0X, 1⟩, ⟨c.EvSyn, c.SynReport, 0⟩,
         ⟨c.EvKey, c.BtnDpadRight, 1⟩, ⟨c.EvSyn, c.SynReport, 0⟩])
    ∧ ((BtnUp c d c.BtnDpadUp).1 = none ∧
      emitted (BtnUp c d c.BtnDpadUp).2 = emitted d ++
        [⟨c.EvAbs, c.AbsHat0Y, 0⟩, ⟨c.EvSyn, c.SynReport, 0⟩,
         ⟨c.EvKey, c.BtnDpadUp, 0⟩, ⟨c.EvSyn, c.SynReport, 0⟩])
    ∧ ((BtnUp c d c.BtnDpadDown).1 = none ∧
      emitted (BtnUp c d c.BtnDpadDown).2 = emitted d ++
        [⟨c.EvAbs, c.AbsHat0Y, 0⟩, ⟨c.EvSyn, c.SynReport, 0⟩,
         ⟨c.EvKey, c.BtnDpadDown, 0⟩, ⟨c.EvSyn, c.SynReport, 0⟩])
    ∧ ((BtnUp c d c.BtnDpadLeft).1 = none ∧
      emitted (BtnUp c d c.BtnDpadLeft).2 = emitted d ++
        [⟨c.EvAbs, c.AbsHat0X, 0⟩, ⟨c.EvSyn, c.SynReport, 0⟩,
         ⟨c.EvKey, c.BtnDpadLeft, 0⟩, ⟨c.EvSyn, c.SynReport, 0⟩])
    ∧ ((BtnUp c d c.BtnDpadRight).1 = none ∧
      emitted (BtnUp c d c.BtnDpadRight).2 = emitted d ++
        [⟨c.EvAbs, c.AbsHat0X, 0⟩, ⟨c.EvSyn, c.SynReport, 0⟩,
         ⟨c.EvKey, c.BtnDpadRight, 0⟩, ⟨c.EvSyn, c.SynReport, 0⟩]) := by
  obtain ⟨a1, a2, a3, a4⟩ := BtnDown_dpad_ok c hc d h
  obtain ⟨b1, b2, b3, b4⟩ := BtnUp_dpad_ok c hc d h
  rw [a1, a2, a3, a4, b1, b2, b3, b4]
  simp [emitted, List.filterMap_append]

/-- Witness of C1 on a fresh all-succeeding handle under the Linux vocabulary:
`BtnDown(BtnDpadUp)` emits (EvAbs, AbsHat0Y, -1), sync, (EvKey, BtnDpadUp, 1), sync. -/
theorem dpad_hat_precedes_key_witness :
    linuxCodes.DpadDistinct ∧ (∀ k, k < 4 → okDev.outcome (okDev.log.length + k) = none) ∧
    emitted (BtnDown linuxCodes okDev 544).2 = [⟨3, 17, -1⟩, ⟨0, 0, 0⟩, ⟨1, 544, 1⟩, ⟨0, 0, 0⟩] :=
  ⟨linuxCodes_dpadDistinct, fun _ _ => rfl,
    (dpad_hat_precedes_key linuxCodes linuxCodes_dpadDistinct okDev (fun _ _ => rfl)).1.2⟩

/-! ## C2: the stick operations pass the value through -/

/-- C2. For every value `v` (every int32 value in particular, whatever the
configured range), when the two device writes succeed, each stick operation
returns no error and makes exactly two calls on the handle: `LeftStickX v`
writes (EvAbs, AbsX, v) then (EvSyn, SynReport, 0); `LeftStickY v` writes
(EvAbs, AbsY, v) then sync; `RightStickX v` writes (EvAbs, AbsRX, v) then sync;
`RightStickY v` writes (EvAbs, AbsRY, v) then sync.  The value is unchanged. -/
theorem stick_passes_value_through (c : Codes) (d : Dev) (v : Int)
    (h0 : d.outcome d.log.length = none) (h1 : d.outcome (d.log.length + 1) = none) :
    ((LeftStickX c d v).1 = none ∧ (LeftStickX c d v).2.log = d.log ++
        [(Call.emit ⟨c.EvAbs, c.AbsX, v⟩, none), (Call.emit ⟨c.EvSyn, c.SynReport, 0⟩, none)])
    ∧ ((LeftStickY c d v).1 = none ∧ (LeftStickY c d v).2.log = d.log ++
        [(Call.emit ⟨c.EvAbs, c.AbsY, v⟩, none), (Call.emit ⟨c.EvSyn, c.SynReport, 0⟩, none)])
    ∧ ((RightStickX c d v).1 = none ∧ (RightStickX c d v).2.log = d.log ++
        [(Call.emit ⟨c.EvAbs, c.AbsRX, v⟩, none), (Call.emit ⟨c.EvSyn, c.SynReport, 0⟩, none)])
    ∧ ((RightStickY c d v).1 = none ∧ (RightStickY c d v).2.log = d.log ++
        [(Call.emit ⟨c.EvAbs, c.AbsRY, v⟩, none), (Call.emit ⟨c.EvSyn, c.SynReport, 0⟩, none)]) := by
  simp [LeftStickX, LeftStickY, RightStickX, RightStickY, emitEvent, Dev.call, h0, h1]

/-- Witness of C2: `LeftStickX(5000)` on a fresh all-succeeding handle writes
exactly (EvAbs, AbsX, 5000) and then the sync event. -/
theorem stick_passes_value_through_witness :
    okDev.outcome okDev.log.length = none ∧ okDev.outcome (okDev.log.length + 1) = none ∧
    (LeftStickX linuxCodes okDev 5000).1 = none ∧
    (LeftStickX linuxCodes okDev 5000).2.log =
      [(Call.emit ⟨3, 0, 5000⟩, none), (Call.emit ⟨0, 0, 0⟩, none)] :=
  ⟨rfl, rfl, (stick_passes_value_through linuxCodes okDev 5000 rfl rfl).1⟩

/-! ## C3: non-dpad buttons -/

/-- C3. For every button code that is not one of the four dpad codes (every
non-dpad code of the Button Set in particular), when the device writes succeed,
`BtnDown code` makes exactly two calls, (EvKey, code, 1) then
(EvSyn, SynReport, 0), `BtnUp code` makes exactly two calls, (EvKey, code, 0)
then (EvSyn, SynReport, 0), both return no error, and `BtnDown` followed by
`BtnUp` yields key-down, sync, key-up, sync. -/
theorem plain_button_two_events (c : Codes) (d : Dev) (btn : Nat)
    (hmem : btn ∈ buttons c)
    (hb : btn ≠ c.BtnDpadUp ∧ btn ≠ c.BtnDpadDown ∧ btn ≠ c.BtnDpadLeft ∧ btn ≠ c.BtnDpadRight)
    (h : ∀ k, k < 4 → d.outcome (d.log.length + k) = none) :
    ((BtnDown c d btn).1 = none ∧ (BtnDown c d btn).2.log = d.log ++
        [(Call.emit ⟨c.EvKey, btn, 1⟩, none), (Call.emit ⟨c.EvSyn, c.SynReport, 0⟩, none)])
    ∧ ((BtnUp c d btn).1 = none ∧ (BtnUp c d btn).2.log = d.log ++
        [(Call.emit ⟨c.EvKey, btn, 0⟩, none), (Call.emit ⟨c.EvSyn, c.SynReport, 0⟩, none)])
    ∧ ((BtnUp c (BtnDown c d btn).2 btn).1 = none ∧
        (BtnUp c (BtnDown c d btn).2 btn).2.log = d.log ++
        [(Call.emit ⟨c.EvKey, btn, 1⟩, none), (Call.emit ⟨c.EvSyn, c.SynReport, 0⟩, none),
         (Call.emit ⟨c.EvKey, btn, 0⟩, none), (Call.emit ⟨c.EvSyn, c.SynReport, 0⟩, none)]) := by
  have h0 : d.outcome d.log.length = none := by simpa using h 0 (by norm_num)
  have h1 := h 1 (by norm_num)
  have h2 := h 2 (by norm_num)
  have h3 := h 3 (by norm_num)
  have _ := hmem
  rw [BtnDown_plain_ok c d btn hb h0 h1, BtnUp_plain_ok c d btn hb h0 h1]
  rw [BtnUp_plain_ok c _ btn hb (by simpa using h2) (by simpa [Nat.add_assoc] using h3)]
  simp

/-- Witness of C3: `BtnSouth` (0x130) under the Linux vocabulary on a fresh
all-succeeding handle. -/
theorem plain_button_two_events_witness :
    (304 ∈ buttons linuxCodes) ∧
    (304 ≠ linuxCodes.BtnDpadUp ∧ 304 ≠ linuxCodes.BtnDpadDown ∧
      304 ≠ linuxCodes.BtnDpadLeft ∧ 304 ≠ linuxCodes.BtnDpadRight) ∧
    (∀ k, k < 4 → okDev.outcome (okDev.log.length + k) = none) ∧
    (BtnUp linuxCodes (BtnDown linuxCodes okDev 304).2 304).2.log =
      [(Call.emit ⟨1, 304, 1⟩, none), (Call.emit ⟨0, 0, 0⟩, none),
       (Call.emit ⟨1, 304, 0⟩, none), (Call.emit ⟨0, 0, 0⟩, none)] :=
  ⟨by decide, by decide, fun _ _ => rfl,
    (plain_button_two_events linuxCodes okDev 304 (by decide) (by decide)
      (fun _ _ => rfl)).2.2.2⟩

/-! ## C4: number of writes of a dpad transition -/

/-- C4, as stated, fails: `BtnDown(BtnDpadUp)` on a fresh all-succeeding handle
performs four event writes (hat update, sync, key event, sync), not the three
writes hat update, key event, sync. -/
theorem dpad_three_writes_counterexample :
    attempted (BtnDown linuxCodes okDev linuxCodes.BtnDpadUp).2 =
        [⟨3, 17, -1⟩, ⟨0, 0, 0⟩, ⟨1, 544, 1⟩, ⟨0, 0, 0⟩]
    ∧ (attempted (BtnDown linuxCodes okDev linuxCodes.BtnDpadUp).2).length = 4
    ∧ attempted (BtnDown linuxCodes okDev linuxCodes.BtnDpadUp).2 ≠
        [⟨3, 17, -1⟩, ⟨1, 544, 1⟩, ⟨0, 0, 0⟩] := by
  decide

/-- C4, amended. For each of the four dpad codes, when every device write
succeeds, a dpad transition (`BtnDown code` or `BtnUp code`) performs exactly
four event writes and no other call, in this order: the hat-axis update, a
sync event, the key event, a sync event. -/
theorem dpad_four_writes (c : Codes) (hc : c.DpadDistinct) (d : Dev)
    (h : ∀ k, k < 4 → d.outcome (d.log.length + k) = none) :
    ∀ btn, btn ∈ [c.BtnDpadUp, c.BtnDpadDown, c.BtnDpadLeft, c.BtnDpadRight] →
      (∃ hat val, hat ∈ hats c ∧ (BtnDown c d btn).2.log = d.log ++
        [(Call.emit ⟨c.EvAbs, hat, val⟩, none), (Call.emit ⟨c.EvSyn, c.SynReport, 0⟩, none),
         (Call.emit ⟨c.EvKey, btn, 1⟩, none), (Call.emit ⟨c.EvSyn, c.SynReport, 0⟩, none)])
      ∧ (∃ hat, hat ∈ hats c ∧ (BtnUp c d btn).2.log = d.log ++
        [(Call.emit ⟨c.EvAbs, hat, 0⟩, none), (Call.emit ⟨c.EvSyn, c.SynReport, 0⟩, none),
         (Call.emit ⟨c.EvKey, btn, 0⟩, none), (Call.emit ⟨c.EvSyn, c.SynReport, 0⟩, none)])
      ∧ (BtnDown c d btn).2.log.length = d.log.length + 4
      ∧ (BtnUp c d btn).2.log.length = d.log.length + 4 := by
  obtain ⟨a1, a2, a3, a4⟩ := BtnDown_dpad_ok c hc d h
  obtain ⟨b1, b2, b3, b4⟩ := BtnUp_dpad_ok c hc d h
  intro btn hbtn
  simp only [List.mem_cons, List.mem_singleton, List.not_mem_nil, or_false] at hbtn
  rcases hbtn with rfl | rfl | rfl | rfl
  · rw [a1, b1]; exact ⟨⟨_, _, by simp [hats], rfl⟩, ⟨_, by simp [hats], rfl⟩, by simp, by simp⟩
  · rw [a2, b2]; exact ⟨⟨_, _, by simp [hats], rfl⟩, ⟨_, by simp [hats], rfl⟩, by simp, by simp⟩
  · rw [a3, b3]; exact ⟨⟨_, _, by simp [hats], rfl⟩, ⟨_, by simp [hats], rfl⟩, by simp, by simp⟩
  · rw [a4, b4]; exact ⟨⟨_, _, by simp [hats], rfl⟩, ⟨_, by simp [hats], rfl⟩, by simp, by simp⟩

/-- Witness of amended C4 under the Linux vocabulary on a fresh all-succeeding
handle: `BtnUp(BtnDpadLeft)` makes four calls. -/
theorem dpad_four_writes_witness :
    linuxCodes.DpadDistinct ∧ (∀ k, k < 4 → okDev.outcome (okDev.log.length + k) = none) ∧
    (546 ∈ [linuxCodes.BtnDpadUp, linuxCodes.BtnDpadDown, linuxCodes.BtnDpadLeft,
      linuxCodes.BtnDpadRight]) ∧
    (BtnUp linuxCodes okDev 546).2.log.length = okDev.log.length + 4 :=
  ⟨linuxCodes_dpadDistinct, fun _ _ => rfl, by decide,
    (dpad_four_writes linuxCodes linuxCodes_dpadDistinct okDev (fun _ _ => rfl) 546
      (by decide)).2.2.2⟩

/-! ## C6: the capability descriptor -/

/-- C6. For all inputs, when the six axis codes are pairwise distinct, the
descriptor built by `setupJoystick` has (min, max, fuzz, flat) equal to
(minX, maxX, fuzz, flat) for AbsX and for AbsRX, (minY, maxY, fuzz, flat) for
AbsY and for AbsRY, and (-1, 1, 0, 0) for AbsHat0X and for AbsHat0Y whatever the
inputs. -/
theorem descriptor_axis_ranges (c : Codes) (hc : c.AxesDistinct)
    (minX maxX minY maxY flat fuzz : Int) :
    let u := setupJoystickUinp c minX maxX minY maxY flat fuzz
    (u.AbsMin c.AbsX, u.AbsMax c.AbsX, u.AbsFuzz c.AbsX, u.AbsFlat c.AbsX)
        = (minX, maxX, fuzz, flat)
    ∧ (u.AbsMin c.AbsRX, u.AbsMax c.AbsRX, u.AbsFuzz c.AbsRX, u.AbsFlat c.AbsRX)
        = (minX, maxX, fuzz, flat)
    ∧ (u.AbsMin c.AbsY, u.AbsMax c.AbsY, u.AbsFuzz c.AbsY, u.AbsFlat c.AbsY)
        = (minY, maxY, fuzz, flat)
    ∧ (u.AbsMin c.AbsRY, u.AbsMax c.AbsRY, u.AbsFuzz c.AbsRY, u.AbsFlat c.AbsRY)
        = (minY, maxY, fuzz, flat)
    ∧ (u.AbsMin c.AbsHat0X, u.AbsMax c.AbsHat0X, u.AbsFuzz c.AbsHat0X, u.AbsFlat c.AbsHat0X)
        = (-1, 1, 0, 0)
    ∧ (u.AbsMin c.AbsHat0Y, u.AbsMax c.AbsHat0Y, u.AbsFuzz c.AbsHat0Y, u.AbsFlat c.AbsHat0Y)
        = (-1, 1, 0, 0) := by
  simp only [Codes.AxesDistinct, List.nodup_cons, List.mem_cons, List.mem_singleton,
    not_or, List.not_mem_nil, not_false_eq_true, List.nodup_nil, and_true] at hc
  obtain ⟨⟨h1, h2, h3, h4, h5⟩, ⟨h6, h7, h8, h9⟩, ⟨h10, h11, h12⟩, ⟨h13, h14⟩, h15⟩ := hc
  simp [setupJoystickUinp, setHatRanges, hats, UinputUserDev.setAbsMin,
    UinputUserDev.setAbsMax, UinputUserDev.setAbsFuzz, UinputUserDev.setAbsFlat,
    UinputUserDev.zero, Function.update_apply, h1, h2, h3, h4, h5, h6, h7, h8, h9, h10, h11,
    h12, h13, h14, h15, Ne.symm h1, Ne.symm h2, Ne.symm h3, Ne.symm h4, Ne.symm h5, Ne.symm h6,
    Ne.symm h7, Ne.symm h8, Ne.symm h9, Ne.symm h10, Ne.symm h11, Ne.symm h12, Ne.symm h13,
    Ne.symm h14, Ne.symm h15]

/-- Witness of C6 under the Linux vocabulary at minX = -32768, maxX = 32767,
minY = -32768, maxY = 32767, flat = 16, fuzz = 0: the right stick's X axis gets
(-32768, 32767, 0, 16) and the hat Y axis (-1, 1, 0, 0). -/
theorem descriptor_axis_ranges_witness :
    linuxCodes.AxesDistinct ∧
    ((setupJoystickUinp linuxCodes (-32768) 32767 (-32768) 32767 16 0).AbsMin 3,
     (setupJoystickUinp linuxCodes (-32768) 32767 (-32768) 32767 16 0).AbsMax 3,
     (setupJoystickUinp linuxCodes (-32768) 32767 (-32768) 32767 16 0).AbsFuzz 3,
     (setupJoystickUinp linuxCodes (-32768) 32767 (-32768) 32767 16 0).AbsFlat 3)
      = (-32768, 32767, 0, 16) ∧
    ((setupJoystickUinp linuxCodes (-32768) 32767 (-32768) 32767 16 0).AbsMin 17,
     (setupJoystickUinp linuxCodes (-32768) 32767 (-32768) 32767 16 0).AbsMax 17,
     (setupJoystickUinp linuxCodes (-32768) 32767 (-32768) 32767 16 0).AbsFuzz 17,
     (setupJoystickUinp linuxCodes (-32768) 32767 (-32768) 32767 16 0).AbsFlat 17)
      = (-1, 1, 0, 0) :=
  ⟨linuxCodes_axesDistinct,
    (descriptor_axis_ranges linuxCodes linuxCodes_axesDistinct
      (-32768) 32767 (-32768) 32767 16 0).2.1,
    (descriptor_axis_ranges linuxCodes linuxCodes_axesDistinct
      (-32768) 32767 (-32768) 32767 16 0).2.2.2.2.2⟩

/-! ## C10: codes outside the Button Set -/

/-- C10, as stated, fails: code 0 is not one of the 17 Button Set codes, yet on
an all-succeeding handle `BtnDown 0` and `BtnUp 0` return no error and write the
key event. -/
theorem unknown_code_counterexample :
    (0 ∉ buttons linuxCodes)
    ∧ (BtnDown linuxCodes okDev 0).1 = none
    ∧ emitted (BtnDown linuxCodes okDev 0).2 = [⟨1, 0, 1⟩, ⟨0, 0, 0⟩]
    ∧ (BtnUp linuxCodes okDev 0).1 = none
    ∧ emitted (BtnUp linuxCodes okDev 0).2 = [⟨1, 0, 0⟩, ⟨0, 0, 0⟩] := by
  decide

/-- C10, amended. `BtnDown` and `BtnUp` make no membership check: for every
code that is not one of the 17 Button Set codes, when the two device writes
succeed, `BtnDown code` returns no error and emits (EvKey, code, 1) then sync,
and `BtnUp code` returns no error and emits (EvKey, code, 0) then sync. -/
theorem unknown_code_is_written (c : Codes) (d : Dev) (btn : Nat) (hb : btn ∉ buttons c)
    (h0 : d.outcome d.log.length = none) (h1 : d.outcome (d.log.length + 1) = none) :
    ((BtnDown c d btn).1 = none ∧ emitted (BtnDown c d btn).2 = emitted d ++
        [⟨c.EvKey, btn, 1⟩, ⟨c.EvSyn, c.SynReport, 0⟩])
    ∧ ((BtnUp c d btn).1 = none ∧ emitted (BtnUp c d btn).2 = emitted d ++
        [⟨c.EvKey, btn, 0⟩, ⟨c.EvSyn, c.SynReport, 0⟩]) := by
  have hb2 : btn ≠ c.BtnDpadUp ∧ btn ≠ c.BtnDpadDown ∧ btn ≠ c.BtnDpadLeft ∧
      btn ≠ c.BtnDpadRight := by
    simp only [buttons, List.mem_cons, List.mem_singleton, not_or, List.not_mem_nil,
      not_false_eq_true, and_true] at hb
    exact ⟨hb.2.2.2.2.2.2.2.2.2.2.2.2.2.1, hb.2.2.2.2.2.2.2.2.2.2.2.2.2.2.1,
      hb.2.2.2.2.2.2.2.2.2.2.2.2.2.2.2.1, hb.2.2.2.2.2.2.2.2.2.2.2.2.2.2.2.2⟩
  rw [BtnDown_plain_ok c d btn hb2 h0 h1, BtnUp_plain_ok c d btn hb2 h0 h1]
  simp [emitted, List.filterMap_append]

/-- Witness of amended C10: code 0 under the Linux vocabulary on a fresh
all-succeeding handle. -/
theorem unknown_code_is_written_witness :
    (0 ∉ buttons linuxCodes) ∧ okDev.outcome okDev.log.length = none ∧
    okDev.outcome (okDev.log.length + 1) = none ∧
    ((BtnDown linuxCodes okDev 0).1 = none ∧ emitted (BtnDown linuxCodes okDev 0).2 =
      emitted okDev ++ [⟨linuxCodes.EvKey, 0, 1⟩, ⟨linuxCodes.EvSyn, linuxCodes.SynReport, 0⟩]) :=
  ⟨by decide, rfl, rfl, (unknown_code_is_written linuxCodes okDev 0 (by decide) rfl rfl).1⟩

/-! ## C9: the dpad sub-machine's error is dropped -/

/-- On a dpad code `dpadDown` always selects a hat axis and a value, and is the
hat write followed (on success) by a sync write. -/
theorem dpadDown_selects (c : Codes) (d : Dev) (btn : Nat)
    (hbtn : btn ∈ [c.BtnDpadUp, c.BtnDpadDown, c.BtnDpadLeft, c.BtnDpadRight]) :
    ∃ hat val, dpadDown c d btn =
      match emitEvent d c.EvAbs hat val with
      | (some e, d) => (some ("Could not emit button up event: " ++ e), d)
      | (none, d) =>
        match emitEvent d c.EvSyn c.SynReport 0 with
        | (some e, d) => (some ("Could not emit sync event: " ++ e), d)
        | (none, d) => (none, d) := by
  simp only [List.mem_cons, List.mem_singleton, List.not_mem_nil, or_false] at hbtn
  unfold dpadDown
  by_cases h1 : btn = c.BtnDpadUp
  · refine ⟨c.AbsHat0Y, -1, ?_⟩
    rw [if_pos h1]
  by_cases h2 : btn = c.BtnDpadDown
  · refine ⟨c.AbsHat0Y, 1, ?_⟩
    rw [if_neg h1, if_pos h2]
  by_cases h3 : btn = c.BtnDpadLeft
  · refine ⟨c.AbsHat0X, -1, ?_⟩
    rw [if_neg h1, if_neg h2, if_pos h3]
  by_cases h4 : btn = c.BtnDpadRight
  · refine ⟨c.AbsHat0X, 1, ?_⟩
    rw [if_neg h1, if_neg h2, if_neg h3, if_pos h4]
  · exact absurd hbtn (by simp [h1, h2, h3, h4])

/-- On a dpad code `dpadUp` always selects a hat axis, and is the hat reset
followed (on success) by a sync write. -/
theorem dpadUp_selects (c : Codes) (d : Dev) (btn : Nat)
    (hbtn : btn ∈ [c.BtnDpadUp, c.BtnDpadDown, c.BtnDpadLeft, c.BtnDpadRight]) :
    ∃ hat, dpadUp c d btn =
      match emitEvent d c.EvAbs hat 0 with
      | (some e, d) => (some ("Could not emit dpad up event: " ++ e), d)
      | (none, d) =>
        match emitEvent d c.EvSyn c.SynReport 0 with
        | (some e, d) => (some ("Could not emit sync event: " ++ e), d)
        | (none, d) => (none, d) := by
  simp only [List.mem_cons, List.mem_singleton, List.not_mem_nil, or_false] at hbtn
  unfold dpadUp
  by_cases h1 : btn = c.BtnDpadUp ∨ btn = c.BtnDpadDown
  · refine ⟨c.AbsHat0Y, ?_⟩
    rw [if_pos h1]
  by_cases h2 : btn = c.BtnDpadLeft ∨ btn = c.BtnDpadRight
  · refine ⟨c.AbsHat0X, ?_⟩
    rw [if_neg h1, if_pos h2]
  · exact absurd hbtn (by
      simp only [not_or] at h1 h2
      simp [h1, h2])

/-- C9. For every dpad code, the result of `BtnDown` / `BtnUp` is decided only
by the key-event write and the sync write that follows it.  If the hat-axis
write fails while the key write and the final sync write succeed, the call
returns no error and emits exactly the key event and the sync.  If the hat-axis
write succeeds and its sync fails while the key write and the final sync write
succeed, the call returns no error and emits the hat event, the key event and
the sync.  The call returns an error exactly when the last call it made is a
failed key write, or a failed sync write that follows a successful key write. -/
theorem dpad_error_swallowed (c : Codes) (d : Dev) (btn : Nat)
    (hbtn : btn ∈ [c.BtnDpadUp, c.BtnDpadDown, c.BtnDpadLeft, c.BtnDpadRight]) :
    ((∀ e, d.outcome d.log.length = some e → d.outcome (d.log.length + 1) = none →
        d.outcome (d.log.length + 2) = none →
        (BtnDown c d btn).1 = none ∧
        emitted (BtnDown c d btn).2 = emitted d ++
          [⟨c.EvKey, btn, 1⟩, ⟨c.EvSyn, c.SynReport, 0⟩])
      ∧ (∀ e, d.outcome d.log.length = none → d.outcome (d.log.length + 1) = some e →
        d.outcome (d.log.length + 2) = none → d.outcome (d.log.length + 3) = none →
        (BtnDown c d btn).1 = none ∧
        ∃ hat val, emitted (BtnDown c d btn).2 = emitted d ++
          [⟨c.EvAbs, hat, val⟩, ⟨c.EvKey, btn, 1⟩, ⟨c.EvSyn, c.SynReport, 0⟩])
      ∧ ((BtnDown c d btn).1 ≠ none ↔
        ∃ e, (BtnDown c d btn).2.log.getLast? = some (Call.emit ⟨c.EvKey, btn, 1⟩, some e)
          ∨ ((BtnDown c d btn).2.log.getLast? =
                some (Call.emit ⟨c.EvSyn, c.SynReport, 0⟩, some e)
              ∧ (BtnDown c d btn).2.log.dropLast.getLast? =
                some (Call.emit ⟨c.EvKey, btn, 1⟩, none))))
    ∧ ((∀ e, d.outcome d.log.length = some e → d.outcome (d.log.length + 1) = none →
        d.outcome (d.log.length + 2) = none →
        (BtnUp c d btn).1 = none ∧
        emitted (BtnUp c d btn).2 = emitted d ++
          [⟨c.EvKey, btn, 0⟩, ⟨c.EvSyn, c.SynReport, 0⟩])
      ∧ (∀ e, d.outcome d.log.length = none → d.outcome (d.log.length + 1) = some e →
        d.outcome (d.log.length + 2) = none → d.outcome (d.log.length + 3) = none →
        (BtnUp c d btn).1 = none ∧
        ∃ hat, emitted (BtnUp c d btn).2 = emitted d ++
          [⟨c.EvAbs, hat, 0⟩, ⟨c.EvKey, btn, 0⟩, ⟨c.EvSyn, c.SynReport, 0⟩])
      ∧ ((BtnUp c d btn).1 ≠ none ↔
        ∃ e, (BtnUp c d btn).2.log.getLast? = some (Call.emit ⟨c.EvKey, btn, 0⟩, some e)
          ∨ ((BtnUp c d btn).2.log.getLast? =
                some (Call.emit ⟨c.EvSyn, c.SynReport, 0⟩, some e)
              ∧ (BtnUp c d btn).2.log.dropLast.getLast? =
                some (Call.emit ⟨c.EvKey, btn, 0⟩, none)))) := by
  obtain ⟨hat, val, hdown⟩ := dpadDown_selects c d btn hbtn
  obtain ⟨hat', hup⟩ := dpadUp_selects c d btn hbtn
  have hmem : btn = c.BtnDpadUp ∨ btn = c.BtnDpadDown ∨ btn = c.BtnDpadLeft ∨
      btn = c.BtnDpadRight := by simpa using hbtn
  have hD : BtnDown c d btn =
      match emitEvent (dpadDown c d btn).2 c.EvKey btn 1 with
      | (some e, d) => (some ("Could not emit dpad down event: " ++ e), d)
      | (none, d) =>
        match emitEvent d c.EvSyn c.SynReport 0 with
        | (some e, d) => (some ("Could not emit sync event: " ++ e), d)
        | (none, d) => (none, d) := by
    unfold BtnDown
    simp only [hmem, if_true]
  have hU : BtnUp c d btn =
      match emitEvent (dpadUp c d btn).2 c.EvKey btn 0 with
      | (some e, d) => (some ("Could not emit button up event: " ++ e), d)
      | (none, d) =>
        match emitEvent d c.EvSyn c.SynReport 0 with
        | (some e, d) => (some ("Could not emit sync event: " ++ e), d)
        | (none, d) => (none, d) := by
    unfold BtnUp
    simp only [hmem, if_true]
  rw [hD, hU, hdown, hup]
  refine ⟨⟨?_, ?_, ?_⟩, ?_, ?_, ?_⟩
  · intro e h0 h1 h2
    simp [emitEvent, Dev.call, h0, h1, h2, emitted, List.filterMap_append, Nat.add_assoc]
  · intro e h0 h1 h2 h3
    refine ⟨?_, hat, val, ?_⟩ <;>
    simp [emitEvent, Dev.call, h0, h1, h2, h3, emitted, List.filterMap_append, Nat.add_assoc]
  · rcases h0 : d.outcome d.log.length with _ | e0 <;>
    rcases h1 : d.outcome (d.log.length + 1) with _ | e1 <;>
    rcases h2 : d.outcome (d.log.length + 2) with _ | e2 <;>
    rcases h3 : d.outcome (d.log.length + 3) with _ | e3 <;>
    simp [emitEvent, Dev.call, h0, h1, h2, h3, Nat.add_assoc, List.getLast?_append,
      List.dropLast_append_of_ne_nil, List.dropLast]
  · intro e h0 h1 h2
    simp [emitEvent, Dev.call, h0, h1, h2, emitted, List.filterMap_append, Nat.add_assoc]
  · intro e h0 h1 h2 h3
    refine ⟨?_, hat', ?_⟩ <;>
    simp [emitEvent, Dev.call, h0, h1, h2, h3, emitted, List.filterMap_append, Nat.add_assoc]
  · rcases h0 : d.outcome d.log.length with _ | e0 <;>
    rcases h1 : d.outcome (d.log.length + 1) with _ | e1 <;>
    rcases h2 : d.outcome (d.log.length + 2) with _ | e2 <;>
    rcases h3 : d.outcome (d.log.length + 3) with _ | e3 <;>
    simp [emitEvent, Dev.call, h0, h1, h2, h3, Nat.add_assoc, List.getLast?_append,
      List.dropLast_append_of_ne_nil, List.dropLast]

/-- Witness of C9 under the Linux vocabulary: on a fresh handle whose first
call (the hat-axis write) fails, `BtnDown(BtnDpadUp)` returns no error and
emits the key event and the sync. -/
theorem dpad_error_swallowed_witness :
    (544 ∈ [linuxCodes.BtnDpadUp, linuxCodes.BtnDpadDown, linuxCodes.BtnDpadLeft,
      linuxCodes.BtnDpadRight]) ∧
    (dpadDown linuxCodes (failAt 0 "EIO") 544).1 = some "Could not emit button up event: EIO" ∧
    (BtnDown linuxCodes (failAt 0 "EIO") 544).1 = none ∧
    emitted (BtnDown linuxCodes (failAt 0 "EIO") 544).2 =
      emitted (failAt 0 "EIO") ++
        [⟨linuxCodes.EvKey, 544, 1⟩, ⟨linuxCodes.EvSyn, linuxCodes.SynReport, 0⟩] :=
  ⟨by decide, by decide,
    (dpad_error_swallowed linuxCodes (failAt 0 "EIO") 544 (by decide)).1.1 "EIO" rfl rfl rfl⟩

/-! ## C5: last write wins on the hat axes -/

/-- The value last written to `axis` in a trace `a ++ b` is found by scanning `b`
from the value last written in `a`. -/
theorem lastWritten_append (c : Codes) (axis : Nat) (a b : List Event) :
    lastWritten c axis (a ++ b) =
      b.foldl (fun acc e => if e.type = c.EvAbs ∧ e.code = axis then some e.value else acc)
        (lastWritten c axis a) := by
  simp [lastWritten, List.foldl_append]

/-- One `BtnDown` / `BtnUp` call on an all-succeeding handle: the handle keeps
succeeding, and the value last written to a hat axis becomes the value of the
transition if it is a dpad transition on that axis, and is unchanged otherwise. -/
theorem runOps_step (c : Codes) (hd : c.DpadDistinct) (hcl : c.ClassesDistinct)
    (hh : c.AbsHat0X ≠ c.AbsHat0Y) (axis : Nat) (hax : axis = c.AbsHat0X ∨ axis = c.AbsHat0Y)
    (d : Dev) (hok : ∀ n, d.log.length ≤ n → d.outcome n = none) (op : Op) :
    (∀ n, (runOps c [op] d).log.length ≤ n → (runOps c [op] d).outcome n = none)
    ∧ lastWritten c axis (emitted (runOps c [op] d)) =
        (match dpadWrite c axis op with
          | some v => some v
          | none => lastWritten c axis (emitted d)) := by
  have h4 : ∀ k, k < 4 → d.outcome (d.log.length + k) = none := fun k _ => hok _ (by omega)
  have h0 : d.outcome d.log.length = none := hok _ (le_refl _)
  have h1 : d.outcome (d.log.length + 1) = none := hok _ (by omega)
  obtain ⟨a1, a2, a3, a4⟩ := BtnDown_dpad_ok c hd d h4
  obtain ⟨b1, b2, b3, b4⟩ := BtnUp_dpad_ok c hd d h4
  have hd2 := hd
  simp only [Codes.DpadDistinct, List.nodup_cons, List.mem_cons, List.mem_singleton,
    not_or, List.not_mem_nil, not_false_eq_true, List.nodup_nil, and_true] at hd2
  obtain ⟨⟨hud, hul, hur⟩, ⟨hdl, hdr⟩, hlr⟩ := hd2
  obtain ⟨hk, hs⟩ := hcl
  have hd' : d = ⟨d.outcome, d.log⟩ := rfl
  cases op with
  | down btn =>
    simp only [runOps]
    by_cases e1 : btn = c.BtnDpadUp
    · subst e1
      rw [a1]
      refine ⟨fun n hn => hok n (by simp at hn; omega), ?_⟩
      rw [emitted_append, ← hd', lastWritten_append]
      rcases hax with rfl | rfl <;>
        simp [emitted, dpadWrite, hh, Ne.symm hh, Ne.symm hk, Ne.symm hs, hud, hul, hur]
    by_cases e2 : btn = c.BtnDpadDown
    · subst e2
      rw [a2]
      refine ⟨fun n hn => hok n (by simp at hn; omega), ?_⟩
      rw [emitted_append, ← hd', lastWritten_append]
      rcases hax with rfl | rfl <;>
        simp [emitted, dpadWrite, hh, Ne.symm hh, Ne.symm hk, Ne.symm hs, Ne.symm hud, hdl, hdr]
    by_cases e3 : btn = c.BtnDpadLeft
    · subst e3
      rw [a3]
      refine ⟨fun n hn => hok n (by simp at hn; omega), ?_⟩
      rw [emitted_append, ← hd', lastWritten_append]
      rcases hax with rfl | rfl <;>
        simp [emitted, dpadWrite, hh, Ne.symm hh, Ne.symm hk, Ne.symm hs, Ne.symm hul,
          Ne.symm hdl, hlr]
    by_cases e4 : btn = c.BtnDpadRight
    · subst e4
      rw [a4]
      refine ⟨fun n hn => hok n (by simp at hn; omega), ?_⟩
      rw [emitted_append, ← hd', lastWritten_append]
      rcases hax with rfl | rfl <;>
        simp [emitted, dpadWrite, hh, Ne.symm hh, Ne.symm hk, Ne.symm hs, Ne.symm hur,
          Ne.symm hdr, Ne.symm hlr]
    · rw [BtnDown_plain_ok c d btn ⟨e1, e2, e3, e4⟩ h0 h1]
      refine ⟨fun n hn => hok n (by simp at hn; omega), ?_⟩
      rw [emitted_append, ← hd', lastWritten_append]
      simp [emitted, dpadWrite, Ne.symm hk, Ne.symm hs, e1, e2, e3, e4]
  | up btn =>
    simp only [runOps]
    by_cases e1 : btn = c.BtnDpadUp
    · subst e1
      rw [b1]
      refine ⟨fun n hn => hok n (by simp at hn; omega), ?_⟩
      rw [emitted_append, ← hd', lastWritten_append]
      rcases hax with rfl | rfl <;>
        simp [emitted, dpadWrite, hh, Ne.symm hh, Ne.symm hk, Ne.symm hs, hud, hul, hur]
    by_cases e2 : btn = c.BtnDpadDown
    · subst e2
      rw [b2]
      refine ⟨fun n hn => hok n (by simp at hn; omega), ?_⟩
      rw [emitted_append, ← hd', lastWritten_append]
      rcases hax with rfl | rfl <;>
        simp [emitted, dpadWrite, hh, Ne.symm hh, Ne.symm hk, Ne.symm hs, Ne.symm hud, hdl, hdr]
    by_cases e3 : btn = c.BtnDpadLeft
    · subst e3
      rw [b3]
      refine ⟨fun n hn => hok n (by simp at hn; omega), ?_⟩
      rw [emitted_append, ← hd', lastWritten_append]
      rcases hax with rfl | rfl <;>
        simp [emitted, dpadWrite, hh, Ne.symm hh, Ne.symm hk, Ne.symm hs, Ne.symm hul,
          Ne.symm hdl, hlr]
    by_cases e4 : btn = c.BtnDpadRight
    · subst e4
      rw [b4]
      refine ⟨fun n hn => hok n (by simp at hn; omega), ?_⟩
      rw [emitted_append, ← hd', lastWritten_append]
      rcases hax with rfl | rfl <;>
        simp [emitted, dpadWrite, hh, Ne.symm hh, Ne.symm hk, Ne.symm hs, Ne.symm hur,
          Ne.symm hdr, Ne.symm hlr]
    · rw [BtnUp_plain_ok c d btn ⟨e1, e2, e3, e4⟩ h0 h1]
      refine ⟨fun n hn => hok n (by simp at hn; omega), ?_⟩
      rw [emitted_append, ← hd', lastWritten_append]
      simp [emitted, dpadWrite, Ne.symm hk, Ne.symm hs, e1, e2, e3, e4]

theorem runOps_cons (c : Codes) (op : Op) (rest : List Op) (d : Dev) :
    runOps c (op :: rest) d = runOps c rest (runOps c [op] d) := by
  cases op <;> rfl

/-- The hat axes after a run of transitions, from any starting value. -/
theorem runOps_lastWritten (c : Codes) (hd : c.DpadDistinct) (hcl : c.ClassesDistinct)
    (hh : c.AbsHat0X ≠ c.AbsHat0Y) (axis : Nat) (hax : axis = c.AbsHat0X ∨ axis = c.AbsHat0Y)
    (ops : List Op) :
    ∀ d : Dev, (∀ n, d.log.length ≤ n → d.outcome n = none) →
      lastWritten c axis (emitted (runOps c ops d)) =
        mostRecent c axis ops (lastWritten c axis (emitted d)) := by
  induction ops with
  | nil => intro d _; rfl
  | cons op rest ih =>
    intro d hok
    obtain ⟨hok', hstep⟩ := runOps_step c hd hcl hh axis hax d hok op
    rw [runOps_cons, ih _ hok', hstep]
    simp [mostRecent]

/-- One `BtnDown` call on any handle, whatever the device answers: the value
last passed to a write on a hat axis becomes the value of the press if `btn` is
a dpad direction of that axis, and is unchanged otherwise. -/
theorem BtnDown_attempted (c : Codes) (hd : c.DpadDistinct) (hcl : c.ClassesDistinct)
    (hh : c.AbsHat0X ≠ c.AbsHat0Y) (axis : Nat) (hax : axis = c.AbsHat0X ∨ axis = c.AbsHat0Y)
    (d : Dev) (btn : Nat) :
    lastWritten c axis (attempted (BtnDown c d btn).2) =
      (match dpadWrite c axis (Op.down btn) with
        | some v => some v
        | none => lastWritten c axis (attempted d)) := by
  simp only [Codes.DpadDistinct, List.nodup_cons, List.mem_cons, List.mem_singleton,
    not_or, List.not_mem_nil, not_false_eq_true, List.nodup_nil, and_true] at hd
  obtain ⟨⟨hud, hul, hur⟩, ⟨hdl, hdr⟩, hlr⟩ := hd
  obtain ⟨hk, hs⟩ := hcl
  by_cases e1 : btn = c.BtnDpadUp
  · subst e1
    rcases h0 : d.outcome d.log.length with _ | s0 <;>
    rcases h1 : d.outcome (d.log.length + 1) with _ | s1 <;>
    rcases h2 : d.outcome (d.log.length + 2) with _ | s2 <;>
    rcases h3 : d.outcome (d.log.length + 3) with _ | s3 <;>
    rcases hax with rfl | rfl <;>
      simp [BtnDown, dpadDown, emitEvent, Dev.call, h0, h1, h2, h3, Nat.add_assoc,
        attempted, lastWritten, List.filterMap_append, List.foldl_append, dpadWrite,
        hh, Ne.symm hh, Ne.symm hk, Ne.symm hs, hud, hul, hur]
  by_cases e2 : btn = c.BtnDpadDown
  · subst e2
    rcases h0 : d.outcome d.log.length with _ | s0 <;>
    rcases h1 : d.outcome (d.log.length + 1) with _ | s1 <;>
    rcases h2 : d.outcome (d.log.length + 2) with _ | s2 <;>
    rcases h3 : d.outcome (d.log.length + 3) with _ | s3 <;>
    rcases hax with rfl | rfl <;>
      simp [BtnDown, dpadDown, emitEvent, Dev.call, h0, h1, h2, h3, Nat.add_assoc,
        attempted, lastWritten, List.filterMap_append, List.foldl_append, dpadWrite,
        hh, Ne.symm hh, Ne.symm hk, Ne.symm hs, Ne.symm hud, hdl, hdr]
  by_cases e3 : btn = c.BtnDpadLeft
  · subst e3
    rcases h0 : d.outcome d.log.length with _ | s0 <;>
    rcases h1 : d.outcome (d.log.length + 1) with _ | s1 <;>
    rcases h2 : d.outcome (d.log.length + 2) with _ | s2 <;>
    rcases h3 : d.outcome (d.log.length + 3) with _ | s3 <;>
    rcases hax with rfl | rfl <;>
      simp [BtnDown, dpadDown, emitEvent, Dev.call, h0, h1, h2, h3, Nat.add_assoc,
        attempted, lastWritten, List.filterMap_append, List.foldl_append, dpadWrite,
        hh, Ne.symm hh, Ne.symm hk, Ne.symm hs, Ne.symm hul, Ne.symm hdl, hlr]
  by_cases e4 : btn = c.BtnDpadRight
  · subst e4
    rcases h0 : d.outcome d.log.length with _ | s0 <;>
    rcases h1 : d.outcome (d.log.length + 1) with _ | s1 <;>
    rcases h2 : d.outcome (d.log.length + 2) with _ | s2 <;>
    rcases h3 : d.outcome (d.log.length + 3) with _ | s3 <;>
    rcases hax with rfl | rfl <;>
      simp [BtnDown, dpadDown, emitEvent, Dev.call, h0, h1, h2, h3, Nat.add_assoc,
        attempted, lastWritten, List.filterMap_append, List.foldl_append, dpadWrite,
        hh, Ne.symm hh, Ne.symm hk, Ne.symm hs, Ne.symm hur, Ne.symm hdr, Ne.symm hlr]
  · rcases h0 : d.outcome d.log.length with _ | s0 <;>
    rcases h1 : d.outcome (d.log.length + 1) with _ | s1 <;>
      simp [BtnDown, emitEvent, Dev.call, h0, h1, attempted, lastWritten,
        List.filterMap_append, List.foldl_append, dpadWrite, Ne.symm hk, Ne.symm hs,
        e1, e2, e3, e4]

/-- One `BtnUp` call on any handle, whatever the device answers: the value last
passed to a write on a hat axis becomes 0 if `btn` is a dpad direction of that
axis, and is unchanged otherwise. -/
theorem BtnUp_attempted (c : Codes) (hd : c.DpadDistinct) (hcl : c.ClassesDistinct)
    (hh : c.AbsHat0X ≠ c.AbsHat0Y) (axis : Nat) (hax : axis = c.AbsHat0X ∨ axis = c.AbsHat0Y)
    (d : Dev) (btn : Nat) :
    lastWritten c axis (attempted (BtnUp c d btn).2) =
      (match dpadWrite c axis (Op.up btn) with
        | some v => some v
        | none => lastWritten c axis (attempted d)) := by
  simp only [Codes.DpadDistinct, List.nodup_cons, List.mem_cons, List.mem_singleton,
    not_or, List.not_mem_nil, not_false_eq_true, List.nodup_nil, and_true] at hd
  obtain ⟨⟨hud, hul, hur⟩, ⟨hdl, hdr⟩, hlr⟩ := hd
  obtain ⟨hk, hs⟩ := hcl
  by_cases e1 : btn = c.BtnDpadUp
  · subst e1
    rcases h0 : d.outcome d.log.length with _ | s0 <;>
    rcases h1 : d.outcome (d.log.length + 1) with _ | s1 <;>
    rcases h2 : d.outcome (d.log.length + 2) with _ | s2 <;>
    rcases h3 : d.outcome (d.log.length + 3) with _ | s3 <;>
    rcases hax with rfl | rfl <;>
      simp [BtnUp, dpadUp, emitEvent, Dev.call, h0, h1, h2, h3, Nat.add_assoc,
        attempted, lastWritten, List.filterMap_append, List.foldl_append, dpadWrite,
        hh, Ne.symm hh, Ne.symm hk, Ne.symm hs, hud, hul, hur]
  by_cases e2 : btn = c.BtnDpadDown
  · subst e2
    rcases h0 : d.outcome d.log.length with _ | s0 <;>
    rcases h1 : d.outcome (d.log.length + 1) with _ | s1 <;>
    rcases h2 : d.outcome (d.log.length + 2) with _ | s2 <;>
    rcases h3 : d.outcome (d.log.length + 3) with _ | s3 <;>
    rcases hax with rfl | rfl <;>
      simp [BtnUp, dpadUp, emitEvent, Dev.call, h0, h1, h2, h3, Nat.add_assoc,
        attempted, lastWritten, List.filterMap_append, List.foldl_append, dpadWrite,
        hh, Ne.symm hh, Ne.symm hk, Ne.symm hs, Ne.symm hud, hdl, hdr]
  by_cases e3 : btn = c.BtnDpadLeft
  · subst e3
    rcases h0 : d.outcome d.log.length with _ | s0 <;>
    rcases h1 : d.outcome (d.log.length + 1) with _ | s1 <;>
    rcases h2 : d.outcome (d.log.length + 2) with _ | s2 <;>
    rcases h3 : d.outcome (d.log.length + 3) with _ | s3 <;>
    rcases hax with rfl | rfl <;>
      simp [BtnUp, dpadUp, emitEvent, Dev.call, h0, h1, h2, h3, Nat.add_assoc,
        attempted, lastWritten, List.filterMap_append, List.foldl_append, dpadWrite,
        hh, Ne.symm hh, Ne.symm hk, Ne.symm hs, Ne.symm hul, Ne.symm hdl, hlr]
  by_cases e4 : btn = c.BtnDpadRight
  · subst e4
    rcases h0 : d.outcome d.log.length with _ | s0 <;>
    rcases h1 : d.outcome (d.log.length + 1) with _ | s1 <;>
    rcases h2 : d.outcome (d.log.length + 2) with _ | s2 <;>
    rcases h3 : d.outcome (d.log.length + 3) with _ | s3 <;>
    rcases hax with rfl | rfl <;>
      simp [BtnUp, dpadUp, emitEvent, Dev.call, h0, h1, h2, h3, Nat.add_assoc,
        attempted, lastWritten, List.filterMap_append, List.foldl_append, dpadWrite,
        hh, Ne.symm hh, Ne.symm hk, Ne.symm hs, Ne.symm hur, Ne.symm hdr, Ne.symm hlr]
  · rcases h0 : d.outcome d.log.length with _ | s0 <;>
    rcases h1 : d.outcome (d.log.length + 1) with _ | s1 <;>
      simp [BtnUp, emitEvent, Dev.call, h0, h1, attempted, lastWritten,
        List.filterMap_append, List.foldl_append, dpadWrite, Ne.symm hk, Ne.symm hs,
        e1, e2, e3, e4]

/-- One `BtnDown` / `BtnUp` call on any handle, whatever the device answers: the
value last passed to a write on a hat axis becomes the value of the transition
if it is a dpad transition on that axis, and is unchanged otherwise. -/
theorem runOps_step_attempted (c : Codes) (hd : c.DpadDistinct) (hcl : c.ClassesDistinct)
    (hh : c.AbsHat0X ≠ c.AbsHat0Y) (axis : Nat) (hax : axis = c.AbsHat0X ∨ axis = c.AbsHat0Y)
    (d : Dev) (op : Op) :
    lastWritten c axis (attempted (runOps c [op] d)) =
      (match dpadWrite c axis op with
        | some v => some v
        | none => lastWritten c axis (attempted d)) := by
  cases op with
  | down btn => exact BtnDown_attempted c hd hcl hh axis hax d btn
  | up btn => exact BtnUp_attempted c hd hcl hh axis hax d btn

/-- The hat axes after a run of transitions on any handle, over the values
passed to the device. -/
theorem runOps_lastWritten_attempted (c : Codes) (hd : c.DpadDistinct)
    (hcl : c.ClassesDistinct) (hh : c.AbsHat0X ≠ c.AbsHat0Y) (axis : Nat)
    (hax : axis = c.AbsHat0X ∨ axis = c.AbsHat0Y) (ops : List Op) :
    ∀ d : Dev, lastWritten c axis (attempted (runOps c ops d)) =
      mostRecent c axis ops (lastWritten c axis (attempted d)) := by
  induction ops with
  | nil => intro d; rfl
  | cons op rest ih =>
    intro d
    rw [runOps_cons, ih, runOps_step_attempted c hd hcl hh axis hax d op]
    simp [mostRecent]

/-- C5. The hat-axis state follows last-write-wins, with no tracking of held
directions.  On every handle, whatever the device answers (so in particular
when every `BtnDown` / `BtnUp` call returns no error), after any sequence of
`BtnDown` / `BtnUp` calls the value last written to a hat axis, that is, last
passed to a write on that axis, is the value of the most recent dpad transition
on that axis (the direction's signed value for a press, 0 for a release), or
the value it had before when the sequence has no such transition.  In
particular after BtnDown(DpadUp), BtnDown(DpadDown), BtnUp(DpadUp) the value
last written to AbsHat0Y is 0, although Down was pressed and not released.
When moreover every write is accepted by the device, the same holds of the
values the device accepted. -/
theorem hat_last_write_wins (c : Codes) (hd : c.DpadDistinct) (hcl : c.ClassesDistinct)
    (hh : c.AbsHat0X ≠ c.AbsHat0Y) (d : Dev) :
    (∀ (ops : List Op) (axis : Nat), axis = c.AbsHat0X ∨ axis = c.AbsHat0Y →
      lastWritten c axis (attempted (runOps c ops d)) =
        mostRecent c axis ops (lastWritten c axis (attempted d)))
    ∧ lastWritten c c.AbsHat0Y (attempted (runOps c
        [Op.down c.BtnDpadUp, Op.down c.BtnDpadDown, Op.up c.BtnDpadUp] d)) = some 0
    ∧ ((∀ n, d.log.length ≤ n → d.outcome n = none) →
      (∀ (ops : List Op) (axis : Nat), axis = c.AbsHat0X ∨ axis = c.AbsHat0Y →
        lastWritten c axis (emitted (runOps c ops d)) =
          mostRecent c axis ops (lastWritten c axis (emitted d)))
      ∧ lastWritten c c.AbsHat0Y (emitted (runOps c
          [Op.down c.BtnDpadUp, Op.down c.BtnDpadDown, Op.up c.BtnDpadUp] d)) = some 0) := by
  refine ⟨fun ops axis hax => runOps_lastWritten_attempted c hd hcl hh axis hax ops d, ?_,
    fun hok => ⟨fun ops axis hax => runOps_lastWritten c hd hcl hh axis hax ops d hok, ?_⟩⟩
  · rw [runOps_lastWritten_attempted c hd hcl hh c.AbsHat0Y (Or.inr rfl) _ d]
    simp [mostRecent, dpadWrite]
  · rw [runOps_lastWritten c hd hcl hh c.AbsHat0Y (Or.inr rfl) _ d hok]
    simp [mostRecent, dpadWrite]

/-- Witness of C5 under the Linux vocabulary, on a fresh handle whose call
number 8 (the hat-axis write of the third transition) fails: BtnDown(DpadUp),
BtnDown(DpadDown) and BtnUp(DpadUp) all return no error, and the value last
written to AbsHat0Y is 0. -/
theorem hat_last_write_wins_witness :
    linuxCodes.DpadDistinct ∧ linuxCodes.ClassesDistinct ∧
    linuxCodes.AbsHat0X ≠ linuxCodes.AbsHat0Y ∧
    (BtnDown linuxCodes (failAt 8 "EIO") 544).1 = none ∧
    (BtnDown linuxCodes (BtnDown linuxCodes (failAt 8 "EIO") 544).2 545).1 = none ∧
    (BtnUp linuxCodes
      (BtnDown linuxCodes (BtnDown linuxCodes (failAt 8 "EIO") 544).2 545).2 544).1 = none ∧
    lastWritten linuxCodes linuxCodes.AbsHat0Y (attempted (runOps linuxCodes
      [Op.down linuxCodes.BtnDpadUp, Op.down linuxCodes.BtnDpadDown,
       Op.up linuxCodes.BtnDpadUp] (failAt 8 "EIO"))) = some 0 :=
  ⟨linuxCodes_dpadDistinct, linuxCodes_classesDistinct, by decide, by decide, by decide,
    by decide,
    (hat_last_write_wins linuxCodes linuxCodes_dpadDistinct linuxCodes_classesDistinct
      (by decide) (failAt 8 "EIO")).2.1⟩

/-! ## C7: registration is an ordered short-circuit pipeline -/

theorem pipeline_length (c : Codes) (uinp : UinputUserDev) (buf : List Nat) :
    (pipeline c uinp buf).length = 28 := by
  simp [pipeline]

/-- When all 28 calls succeed, `setupJoystick` returns no error and has issued
exactly the pipeline. -/
theorem setupJoystick_all_ok (c : Codes)
    (toBuf : UinputUserDev → Except String (List Nat)) (d : Dev)
    (minX maxX minY maxY flat fuzz : Int) (buf : List Nat)
    (hbuf : toBuf (setupJoystickUinp c minX maxX minY maxY flat fuzz) = Except.ok buf)
    (hok : ∀ k, k < 28 → d.outcome (d.log.length + k) = none) :
    (setupJoystick c toBuf d minX maxX minY maxY flat fuzz).1 = none
    ∧ issued d (setupJoystick c toBuf d minX maxX minY maxY flat fuzz).2 =
        pipeline c (setupJoystickUinp c minX maxX minY maxY flat fuzz) buf := by
  have h0 : d.outcome d.log.length = none := hok 0 (by norm_num)
  simp [setupJoystick, hbuf, setBits, buttons, hats, ioctl, Dev.call, h0, hok, Nat.add_assoc,
    issued, pipeline]

/-- When call number `j` of the pipeline is the first to fail, `setupJoystick`
returns an error and has issued exactly the first `j + 1` calls of the
pipeline, followed by `Close` when the failing call is the create directive. -/
theorem setupJoystick_first_failure (c : Codes)
    (toBuf : UinputUserDev → Except String (List Nat)) (d : Dev)
    (minX maxX minY maxY flat fuzz : Int) (buf : List Nat)
    (hbuf : toBuf (setupJoystickUinp c minX maxX minY maxY flat fuzz) = Except.ok buf)
    (j : Nat) (e : String) (hj : j < 28)
    (hok : ∀ k, k < j → d.outcome (d.log.length + k) = none)
    (hfail : d.outcome (d.log.length + j) = some e) :
    (setupJoystick c toBuf d minX maxX minY maxY flat fuzz).1 ≠ none
    ∧ issued d (setupJoystick c toBuf d minX maxX minY maxY flat fuzz).2 =
        (pipeline c (setupJoystickUinp c minX maxX minY maxY flat fuzz) buf).take (j + 1)
          ++ (if j = 27 then [Call.close] else []) := by
  have h0 : 0 < j → d.outcome d.log.length = none := fun h => hok 0 h
  interval_cases j <;>
    simp_all [setupJoystick, setBits, buttons, hats, ioctl, Dev.call, Nat.add_assoc,
      issued, pipeline]

/-- Among failing calls there is a first one. -/
theorem first_failing_call (d : Dev) (j : Nat) (h : d.outcome (d.log.length + j) ≠ none) :
    ∃ i e, i ≤ j ∧ (∀ k, k < i → d.outcome (d.log.length + k) = none) ∧
      d.outcome (d.log.length + i) = some e := by
  classical
  have hex : ∃ i, d.outcome (d.log.length + i) ≠ none := ⟨j, h⟩
  obtain ⟨e, he⟩ := Option.ne_none_iff_exists'.mp (Nat.find_spec hex)
  exact ⟨Nat.find hex, e, Nat.find_min' hex h,
    fun k hk => not_not.mp (Nat.find_min hex hk), he⟩

/-- C7. Registration is an ordered short-circuit pipeline.  When serialising
the descriptor fails, `setupJoystick` returns that error without any call on
the handle.  Otherwise it issues the 28 calls of `pipeline` in order: the
key-event class bit, the 17 button bits BtnSouth, BtnEast, BtnNorth, BtnWest,
BtnTL, BtnTR, BtnTL2, BtnTR2, BtnSelect, BtnStart, BtnMode, BtnThumbL,
BtnThumbR, BtnDpadUp, BtnDpadDown, BtnDpadLeft, BtnDpadRight, the
absolute-axis class bit, the axis bits AbsX, AbsY, AbsRX, AbsRY, AbsHat0X,
AbsHat0Y, the descriptor transmission (setup ioctl, then write), the create
directive.  When all succeed it returns no error having issued exactly the
pipeline; when call number `j` is the first to fail it returns an error having
issued exactly the first `j + 1` pipeline calls and none after (the failing
create directive alone is followed by closing the handle).  In particular, when
any call before the create directive fails, so any of the 25 capability-bit
registrations (calls 0 to 24) or either call of the descriptor transmission
(calls 25 and 26), an error is returned and the create directive is never
issued. -/
theorem setup_short_circuit_pipeline (c : Codes)
    (toBuf : UinputUserDev → Except String (List Nat)) (d : Dev)
    (minX maxX minY maxY flat fuzz : Int) :
    (∀ e, toBuf (setupJoystickUinp c minX maxX minY maxY flat fuzz) = Except.error e →
      setupJoystick c toBuf d minX maxX minY maxY flat fuzz = (some e, d))
    ∧ (∀ buf, toBuf (setupJoystickUinp c minX maxX minY maxY flat fuzz) = Except.ok buf →
      ((∀ k, k < 28 → d.outcome (d.log.length + k) = none) →
        (setupJoystick c toBuf d minX maxX minY maxY flat fuzz).1 = none
        ∧ issued d (setupJoystick c toBuf d minX maxX minY maxY flat fuzz).2 =
            pipeline c (setupJoystickUinp c minX maxX minY maxY flat fuzz) buf)
      ∧ (∀ j e, j < 28 → (∀ k, k < j → d.outcome (d.log.length + k) = none) →
        d.outcome (d.log.length + j) = some e →
        (setupJoystick c toBuf d minX maxX minY maxY flat fuzz).1 ≠ none
        ∧ issued d (setupJoystick c toBuf d minX maxX minY maxY flat fuzz).2 =
            (pipeline c (setupJoystickUinp c minX maxX minY maxY flat fuzz) buf).take (j + 1)
              ++ (if j = 27 then [Call.close] else []))
      ∧ (∀ j, j < 27 → d.outcome (d.log.length + j) ≠ none →
        (setupJoystick c toBuf d minX maxX minY maxY flat fuzz).1 ≠ none
        ∧ ∀ cl, cl ∈ issued d (setupJoystick c toBuf d minX maxX minY maxY flat fuzz).2 →
            cl.isCreate = false)) := by
  refine ⟨fun e he => by simp [setupJoystick, he], fun buf hbuf => ⟨?_, ?_, ?_⟩⟩
  · exact setupJoystick_all_ok c toBuf d minX maxX minY maxY flat fuzz buf hbuf
  · intro j e hj hok hfail
    exact setupJoystick_first_failure c toBuf d minX maxX minY maxY flat fuzz buf hbuf j e hj
      hok hfail
  · intro j hj hne
    obtain ⟨i, e, hij, hok, hfail⟩ := first_failing_call d j hne
    have hi : i < 27 := lt_of_le_of_lt hij hj
    obtain ⟨h1, h2⟩ := setupJoystick_first_failure c toBuf d minX maxX minY maxY flat fuzz buf
      hbuf i e (by omega) hok hfail
    refine ⟨h1, ?_⟩
    rw [h2]
    clear h1 h2 hok hfail hij hne
    interval_cases i <;> simp [pipeline, Call.isCreate]

/-- Witness of C7 under the Linux vocabulary: on a fresh handle whose call
number 3 (the third button bit) fails, `setupJoystick` returns an error and the
create directive is not among the calls issued. -/
theorem setup_short_circuit_pipeline_witness :
    okBuffer (setupJoystickUinp linuxCodes (-32768) 32767 (-32768) 32767 16 0) = Except.ok []
    ∧ (failAt 3 "EPERM").outcome ((failAt 3 "EPERM").log.length + 3) ≠ none
    ∧ ((setupJoystick linuxCodes okBuffer (failAt 3 "EPERM")
          (-32768) 32767 (-32768) 32767 16 0).1 ≠ none
      ∧ ∀ cl, cl ∈ issued (failAt 3 "EPERM") (setupJoystick linuxCodes okBuffer
          (failAt 3 "EPERM") (-32768) 32767 (-32768) 32767 16 0).2 → cl.isCreate = false) :=
  ⟨rfl, by decide,
    ((setup_short_circuit_pipeline linuxCodes okBuffer (failAt 3 "EPERM")
      (-32768) 32767 (-32768) 32767 16 0).2 [] rfl).2.2 3 (by decide) (by decide)⟩

/-! ## C8: the handle on a capability-bit failure -/

/-- C8 evaluated on the code: on a handle whose call number 5 (a button-bit
registration) fails, `CreateJoystick` returns the UI_SET_KEYBIT error and none
of the six calls it made on the handle is `Close`, so the handle it opened is
left open.  On a handle whose call number 27 (the create directive) fails, the
last call made is `Close`. -/
theorem create_leaves_handle_open_on_bit_failure :
    (CreateJoystick linuxCodes okBuffer (Except.ok (failAt 5 "EPERM"))
        (-32768) 32767 (-32768) 32767 16 0).1
      = some "Could not perform UI_SET_KEYBIT ioctl: EPERM"
    ∧ (CreateJoystick linuxCodes okBuffer (Except.ok (failAt 5 "EPERM"))
        (-32768) 32767 (-32768) 32767 16 0).2.map (fun h => h.log.map (fun x => x.1.isClose))
      = some [false, false, false, false, false, false]
    ∧ (CreateJoystick linuxCodes okBuffer (Except.ok (failAt 27 "EPERM"))
        (-32768) 32767 (-32768) 32767 16 0).1
      = some "Could not perform UI_DEV_CREATE ioctl: EPERM"
    ∧ (CreateJoystick linuxCodes okBuffer (Except.ok (failAt 27 "EPERM"))
        (-32768) 32767 (-32768) 32767 16 0).2.map
          (fun h => (h.log.map (fun x => x.1.isClose)).getLast?)
      = some (some true) := by
  decide

end Uinput
